import Mathlib

/-!
Shallow embedding of the pi-mono worker (packages/worker/src/index.ts,
reliable stream-consumer mode) and verification of its specification.

The worker's effectful operations (Redis publishes, acknowledgments, calls
into the agent runtime) are modelled as entries of an explicit effect trace.
Fallible external operations (JSON.parse, the agent prompt, each publish)
are modelled by oracle parameters saying whether they succeed, so the
try/catch/finally control flow of the source is reproduced faithfully.
-/

namespace PiWorker

/-- Status discriminator of an output-channel record (`WorkerResponse.status`). -/
inductive RecStatus
  | success
  | error
  | progress
deriving DecidableEq, Repr

/-- The `event` field of a progress record. -/
inductive ProgressEvent
  | llm_start
  | llm_end
  | tool_start
  | tool_end
deriving DecidableEq, Repr

/-- The `data` field of a progress record: absent for llm events, tool
name/args for `tool_start`, tool name/result/isError for `tool_end`. -/
inductive ProgressData
  | noData
  | toolStart (tool : String) (args : String)
  | toolEnd (tool : String) (result : String) (isError : Bool)
deriving DecidableEq, Repr

/-- Output-channel wire record (`WorkerResponse` in pi-protocol): one record
type with optional fields, discriminated by `status`. -/
structure WorkerResponse where
  id : Option String
  status : RecStatus
  event : Option ProgressEvent
  data : ProgressData
  response : Option String
  error : Option String
deriving DecidableEq, Repr

/-- A success result record, as built in `main` on normal prompt return. -/
def successRec (id : Option String) (response : String) : WorkerResponse :=
  ⟨id, RecStatus.success, none, ProgressData.noData, some response, none⟩

/-- An error result record, as built in `main`'s catch branch. -/
def errorRec (id : Option String) (e : String) : WorkerResponse :=
  ⟨id, RecStatus.error, none, ProgressData.noData, none, some e⟩

/-- A progress record, as built in the session-subscribe handler. -/
def progressRec (id : Option String) (ev : ProgressEvent) (d : ProgressData) :
    WorkerResponse :=
  ⟨id, RecStatus.progress, some ev, d, none, none⟩

/-- An input-queue task payload (`WorkerTask` in pi-protocol). -/
structure WorkerTask where
  id : Option String
  source : Option String
  prompt : Option String
deriving DecidableEq, Repr

/-- A content block of an agent message; only `text` blocks contribute to the
response text. -/
inductive ContentBlock
  | text (s : String)
  | other (kind : String)
deriving DecidableEq, Repr

/-- An agent message: a role string (the source compares it with
`"assistant"`) and a list of content blocks. -/
structure Message where
  role : String
  content : List ContentBlock
deriving DecidableEq, Repr

/-- An agent-session event as seen by the subscribe handler. -/
inductive SessionEvent
  | message_start (message : Message)
  | message_end (message : Message)
  | tool_execution_start (toolName : String) (args : String)
  | tool_execution_end (toolName : String) (result : String) (isError : Bool)
  | otherEvent (kind : String)
deriving DecidableEq, Repr

/-- One entry of the worker's effect trace. -/
inductive Effect
  | logged (what : String)
  | publish (r : WorkerResponse)
  | publishFailed (r : WorkerResponse)
  | enqueueTask (t : WorkerTask)
  | ackMsg (messageId : String)
  | unsub
  | abortCall
  | steerCall (message : String)
  | newSessionCall
deriving DecidableEq, Repr

/-- Outcome of `session.prompt`: normal return, or a thrown error carrying a
message string. -/
inductive PromptOutcome
  | ok
  | fail (message : String)
deriving DecidableEq, Repr

/-- The fixed user-facing abort message published in place of the raw
`"Aborted"` error text (index.ts line 201). -/
def abortFixedMessage : String := "Task aborted by user"

/-- The error text published by the catch branch:
`err.message === "Aborted" ? "Task aborted by user" : err.message`. -/
def publishedErrorText (m : String) : String :=
  if m = "Aborted" then abortFixedMessage else m

/-- Response-text accumulation for one event (subscribe handler, index.ts
lines 136-142): on an assistant `message_end`, append every text block. -/
def appendTextBlocks (acc : String) (blocks : List ContentBlock) : String :=
  blocks.foldl
    (fun s b => match b with
      | ContentBlock.text t => s ++ t
      | ContentBlock.other _ => s) acc

/-- Fold step of the subscribe handler's `responseText` accumulation. -/
def accumulateResponse (acc : String) (e : SessionEvent) : String :=
  match e with
  | SessionEvent.message_end m =>
      if m.role = "assistant" then appendTextBlocks acc m.content else acc
  | _ => acc

/-- The `responseText` accumulated over a task's full event stream. -/
def responseTextOf (events : List SessionEvent) : String :=
  events.foldl accumulateResponse ""

/-- Progress-event mapping of the subscribe handler (index.ts lines 144-173):
which progress record, if any, one session event produces. -/
def progressOf (id : Option String) (e : SessionEvent) : Option WorkerResponse :=
  match e with
  | SessionEvent.message_start m =>
      if m.role = "assistant" then
        some (progressRec id ProgressEvent.llm_start ProgressData.noData)
      else none
  | SessionEvent.message_end m =>
      if m.role = "assistant" then
        some (progressRec id ProgressEvent.llm_end ProgressData.noData)
      else none
  | SessionEvent.tool_execution_start n a =>
      some (progressRec id ProgressEvent.tool_start (ProgressData.toolStart n a))
  | SessionEvent.tool_execution_end n r ie =>
      some (progressRec id ProgressEvent.tool_end (ProgressData.toolEnd n r ie))
  | SessionEvent.otherEvent _ => none

/-- Trace of progress publishes emitted while the prompt runs. `progOk n`
says whether the publish of the n-th event's progress record succeeds; a
failed publish is caught inline (`.catch`) and does not alter control flow. -/
def progressEffectsFrom (id : Option String) (progOk : Nat → Bool) :
    Nat → List SessionEvent → List Effect
  | _, [] => []
  | n, e :: rest =>
    let tail := progressEffectsFrom id progOk (n + 1) rest
    match progressOf id e with
    | some r =>
        (if progOk n then Effect.publish r else Effect.publishFailed r) :: tail
    | none => tail

/-- Progress publishes for a task's whole event stream. -/
def progressEffects (id : Option String) (events : List SessionEvent)
    (progOk : Nat → Bool) : List Effect :=
  progressEffectsFrom id progOk 0 events

/-- Terminal-result publishes of the try/catch (index.ts lines 182-204),
before the finally block. `okPub` says whether the success-path `xadd`
succeeds; if it rejects, the catch branch builds an error record from the
rejection's message `pubFailMsg` and attempts to publish it; `errPub` says
whether the catch-branch `xadd` succeeds. -/
def terminalEffects (id : Option String) (responseText : String)
    (outcome : PromptOutcome) (okPub errPub : Bool) (pubFailMsg : String) :
    List Effect :=
  match outcome with
  | PromptOutcome.ok =>
      if okPub then [Effect.publish (successRec id responseText)]
      else
        Effect.publishFailed (successRec id responseText) ::
          (let e := errorRec id (publishedErrorText pubFailMsg)
           if errPub then [Effect.publish e] else [Effect.publishFailed e])
  | PromptOutcome.fail m =>
      let e := errorRec id (publishedErrorText m)
      if errPub then [Effect.publish e] else [Effect.publishFailed e]

/-- Whether an exception escapes the try/catch (a catch-branch publish that
itself rejected): it then runs the finally block and propagates to the outer
loop's catch. -/
def terminalThrows (outcome : PromptOutcome) (okPub errPub : Bool) : Bool :=
  match outcome with
  | PromptOutcome.ok => !okPub && !errPub
  | PromptOutcome.fail _ => !errPub

/-- Full effect trace of one task execution (subscribe, prompt with progress
stream, terminal publish, finally-block unsubscribe), paired with whether an
exception is propagating when the finally block finishes. The
acknowledgment lives in `processMessage`, with the rest of the finally. -/
def runTask (id : Option String) (events : List SessionEvent)
    (outcome : PromptOutcome) (okPub errPub : Bool) (pubFailMsg : String)
    (progOk : Nat → Bool) : List Effect × Bool :=
  (progressEffects id events progOk ++
     terminalEffects id (responseTextOf events) outcome okPub errPub pubFailMsg ++
     [Effect.unsub],
   terminalThrows outcome okPub errPub)

/-- Payload extraction from the flat field array of a stream record
(index.ts lines 97-103): scan name/value pairs, first `"payload"` wins,
else the empty (falsy) default. -/
def findPayload : List String → String
  | name :: value :: rest => if name = "payload" then value else findPayload rest
  | _ => ""

/-- One iteration of the reliable-mode consume loop for a dequeued message
(index.ts lines 95-215): payload extraction, JSON parse (modelled by the
oracle `parse`), prompt validation, task execution, finally-block ack, and
the outer catch that logs a propagated exception instead of crashing. -/
def processMessage (messageId : String) (fields : List String)
    (parse : String → Option WorkerTask) (events : List SessionEvent)
    (outcome : PromptOutcome) (okPub errPub : Bool) (pubFailMsg : String)
    (progOk : Nat → Bool) : List Effect :=
  let raw := findPayload fields
  if raw = "" then
    [Effect.logged "no payload fields", Effect.ackMsg messageId]
  else
    match parse raw with
    | none => [Effect.logged "Failed to parse message as JSON"]
    | some payload =>
      if payload.prompt.getD "" = "" then
        [Effect.logged "Message missing prompt"]
      else
        let r := runTask payload.id events outcome okPub errPub pubFailMsg progOk
        r.1 ++ [Effect.ackMsg messageId] ++
          (if r.2 then [Effect.logged "Worker loop error"] else [])

/-- A parsed control signal (`WorkerControlSignal`): the handler inspects
`command`, `message` and `id`. -/
structure ControlSignal where
  command : String
  message : Option String
  id : Option String
deriving DecidableEq, Repr

/-- The greeting prompt enqueued by the reset branch (index.ts line 62). -/
def greetingPrompt : String := "向用户发出你的问候"

/-- The greeting task the reset branch enqueues: it carries the signal's
`id`, the `"internal"` source tag, and the fixed greeting prompt. -/
def greetingTask (signalId : Option String) : WorkerTask :=
  ⟨signalId, some "internal", some greetingPrompt⟩

/-- Body of the control-signal handler (index.ts lines 46-65), before its
catch. `Except.error tr` means an exception was thrown after emitting trace
`tr` (an unparseable signal throws at once with an empty trace); the
`...Fails` oracles say whether `agent.abort`, `session.steer`,
`session.newSession` and the greeting `xadd` throw/reject. -/
def handlerBody (currentTaskId : Option String) (parsed : Option ControlSignal)
    (abortFails steerFails newSessionFails enqueueFails : Bool) :
    Except (List Effect) (List Effect) :=
  match parsed with
  | none => Except.error []
  | some s =>
    if s.command = "stop" then
      let l := Effect.logged ("[Interrupt] stop, current " ++ currentTaskId.getD "none")
      if abortFails then Except.error [l] else Except.ok [l, Effect.abortCall]
    else if s.command = "steer" ∧ s.message.getD "" ≠ "" then
      let l := Effect.logged ("[Steer] current " ++ currentTaskId.getD "none")
      if steerFails then Except.error [l]
      else Except.ok [l, Effect.steerCall (s.message.getD "")]
    else if s.command = "reset" then
      let l := Effect.logged "[Reset]"
      if newSessionFails then Except.error [l]
      else if enqueueFails then Except.error [l, Effect.newSessionCall]
      else Except.ok [l, Effect.newSessionCall, Effect.enqueueTask (greetingTask s.id)]
    else Except.ok []

/-- The full control-signal handler: the body wrapped in the catch-all that
logs and swallows every exception. Returns the trace and whether an
exception propagates out of the handler (never). -/
def handleControlSignal (currentTaskId : Option String)
    (parsed : Option ControlSignal)
    (abortFails steerFails newSessionFails enqueueFails : Bool) :
    List Effect × Bool :=
  match handlerBody currentTaskId parsed abortFails steerFails newSessionFails enqueueFails with
  | Except.ok tr => (tr, false)
  | Except.error tr =>
      (tr ++ [Effect.logged "[Control] Failed to parse control signal as JSON"], false)

/-- Whether an output record is a terminal result (not a progress record). -/
def isResultRec (r : WorkerResponse) : Bool :=
  match r.status with
  | RecStatus.progress => false
  | _ => true

/-- The terminal result records successfully published in a trace. -/
def resultsOf (tr : List Effect) : List WorkerResponse :=
  tr.filterMap (fun e =>
    match e with
    | Effect.publish r => if isResultRec r then some r else none
    | _ => none)

/-- Modelled from the spec: ordered concatenation of the contents of the
text-typed blocks of one message. -/
def textOfBlocks : List ContentBlock → String
  | [] => ""
  | ContentBlock.text t :: rest => t ++ textOfBlocks rest
  | ContentBlock.other _ :: rest => textOfBlocks rest

/-- Modelled from the spec: the response text as the spec words it — the
ordered concatenation of every text block of every assistant message-end
event, and nothing else. -/
def specResponseText : List SessionEvent → String
  | [] => ""
  | SessionEvent.message_end m :: rest =>
      (if m.role = "assistant" then textOfBlocks m.content else "") ++
        specResponseText rest
  | _ :: rest => specResponseText rest

/-! ### Helper lemmas -/

/-- Every record the progress mapping produces has progress status. -/
lemma progressOf_status (id : Option String) (e : SessionEvent)
    (r : WorkerResponse) (h : progressOf id e = some r) :
    r.status = RecStatus.progress := by
  cases e with
  | message_start m =>
      by_cases hm : m.role = "assistant"
      · simp only [progressOf, hm, if_pos, Option.some.injEq] at h
        simp [← h, progressRec]
      · simp [progressOf, hm] at h
  | message_end m =>
      by_cases hm : m.role = "assistant"
      · simp only [progressOf, hm, if_pos, Option.some.injEq] at h
        simp [← h, progressRec]
      · simp [progressOf, hm] at h
  | tool_execution_start n a =>
      simp [progressOf] at h; simp [← h, progressRec]
  | tool_execution_end n res ie =>
      simp [progressOf] at h; simp [← h, progressRec]
  | otherEvent k => simp [progressOf] at h

/-- `resultsOf` distributes over trace concatenation. -/
lemma resultsOf_append (a b : List Effect) :
    resultsOf (a ++ b) = resultsOf a ++ resultsOf b := by
  simp [resultsOf, List.filterMap_append]

/-- A published progress record contributes nothing to `resultsOf`. -/
lemma resultsOf_cons_publish_progress (r : WorkerResponse) (tr : List Effect)
    (h : isResultRec r = false) :
    resultsOf (Effect.publish r :: tr) = resultsOf tr := by
  simp [resultsOf, List.filterMap_cons, h]

/-- A failed publish contributes nothing to `resultsOf`. -/
lemma resultsOf_cons_publishFailed (r : WorkerResponse) (tr : List Effect) :
    resultsOf (Effect.publishFailed r :: tr) = resultsOf tr := by
  simp [resultsOf, List.filterMap_cons]

/-- Progress publishes never contribute a terminal result record. -/
lemma resultsOf_progressEffectsFrom (id : Option String) (progOk : Nat → Bool) :
    ∀ (n : Nat) (events : List SessionEvent),
      resultsOf (progressEffectsFrom id progOk n events) = [] := by
  intro n events
  induction events generalizing n with
  | nil => simp [progressEffectsFrom, resultsOf]
  | cons e rest ih =>
      cases hp : progressOf id e with
      | none => simpa [progressEffectsFrom, hp] using ih (n + 1)
      | some r =>
          have hres : isResultRec r = false := by
            simp [isResultRec, progressOf_status id e r hp]
          cases hg : progOk n with
          | true =>
              simp only [progressEffectsFrom, hp, hg, if_true]
              rw [resultsOf_cons_publish_progress r _ hres]
              exact ih (n + 1)
          | false =>
              simp only [progressEffectsFrom, hp, hg, Bool.false_eq_true,
                if_false]
              rw [resultsOf_cons_publishFailed]
              exact ih (n + 1)

/-- Progress publishes for a whole event stream yield no result record. -/
lemma resultsOf_progressEffects (id : Option String)
    (events : List SessionEvent) (progOk : Nat → Bool) :
    resultsOf (progressEffects id events progOk) = [] :=
  resultsOf_progressEffectsFrom id progOk 0 events

/-- `appendTextBlocks` appends exactly the text-block concatenation. -/
lemma appendTextBlocks_eq (acc : String) (bs : List ContentBlock) :
    appendTextBlocks acc bs = acc ++ textOfBlocks bs := by
  induction bs generalizing acc with
  | nil => simp [appendTextBlocks, textOfBlocks]
  | cons b rest ih =>
      cases b with
      | text t =>
          simp [appendTextBlocks, textOfBlocks] at ih ⊢
          rw [ih, String.append_assoc]
      | other k =>
          simp [appendTextBlocks, textOfBlocks] at ih ⊢
          rw [ih]

/-- The source's fold-based accumulation computes the spec's concatenation,
for any starting accumulator. -/
lemma foldl_accumulateResponse (events : List SessionEvent) :
    ∀ acc : String,
      events.foldl accumulateResponse acc = acc ++ specResponseText events := by
  induction events with
  | nil => intro acc; simp [specResponseText]
  | cons e rest ih =>
      intro acc
      cases e with
      | message_end m =>
          by_cases hm : m.role = "assistant"
          · simp [accumulateResponse, hm, specResponseText, ih,
              appendTextBlocks_eq, String.append_assoc]
          · simp [accumulateResponse, hm, specResponseText, ih]
      | message_start m => simp [accumulateResponse, specResponseText, ih]
      | tool_execution_start n a => simp [accumulateResponse, specResponseText, ih]
      | tool_execution_end n r ie => simp [accumulateResponse, specResponseText, ih]
      | otherEvent k => simp [accumulateResponse, specResponseText, ih]

/-- The accumulated response text equals the spec-side concatenation. -/
lemma responseTextOf_eq_spec (events : List SessionEvent) :
    responseTextOf events = specResponseText events := by
  have h := foldl_accumulateResponse events ""
  simpa [responseTextOf] using h

/-- On a failed prompt whose catch-branch publish succeeds, the published
terminal results are exactly the one error record built from the failure
message. -/
lemma resultsOf_runTask_fail (id : Option String) (events : List SessionEvent)
    (m : String) (okPub : Bool) (pubFailMsg : String) (progOk : Nat → Bool) :
    resultsOf (runTask id events (PromptOutcome.fail m) okPub true pubFailMsg
        progOk).1
      = [errorRec id (publishedErrorText m)] := by
  rw [show (runTask id events (PromptOutcome.fail m) okPub true pubFailMsg
        progOk).1
      = progressEffects id events progOk ++
          terminalEffects id (responseTextOf events) (PromptOutcome.fail m)
            okPub true pubFailMsg ++
          [Effect.unsub] from rfl]
  rw [resultsOf_append, resultsOf_append, resultsOf_progressEffects]
  simp [terminalEffects, resultsOf, isResultRec, errorRec]

/-- Whenever the terminal publish that the control flow reaches succeeds, at
least one terminal result record is published. -/
lemma resultsOf_terminal_ne_nil (id : Option String) (rt : String)
    (outcome : PromptOutcome) (okPub errPub : Bool) (pubFailMsg : String)
    (h : errPub = true ∨ (outcome = PromptOutcome.ok ∧ okPub = true)) :
    resultsOf (terminalEffects id rt outcome okPub errPub pubFailMsg) ≠ [] := by
  rcases h with h | ⟨ho, hk⟩
  · subst h
    cases outcome with
    | ok =>
        cases hk : okPub <;>
          simp [terminalEffects, hk, resultsOf, isResultRec, successRec,
            errorRec, List.filterMap_cons]
    | fail m =>
        simp [terminalEffects, resultsOf, isResultRec, errorRec]
  · subst ho
    subst hk
    simp [terminalEffects, resultsOf, isResultRec, successRec]

/-! ### Claim theorems -/

/-- C5: for every task that completes successfully, the published success
result's response text equals the ordered concatenation of every text-typed
content block of every assistant message-end event of that task, and
nothing else: the only terminal record published is
`success(specResponseText events)`, for every event stream, independent of
tool events, non-assistant messages and progress-publish outcomes. -/
theorem C5_success_response_is_spec_concatenation
    (id : Option String) (events : List SessionEvent) (errPub : Bool)
    (pubFailMsg : String) (progOk : Nat → Bool) :
    resultsOf (runTask id events PromptOutcome.ok true errPub pubFailMsg progOk).1
      = [successRec id (specResponseText events)] := by
  rw [show (runTask id events PromptOutcome.ok true errPub pubFailMsg progOk).1
      = progressEffects id events progOk ++
          terminalEffects id (responseTextOf events) PromptOutcome.ok true errPub
            pubFailMsg ++
          [Effect.unsub] from rfl]
  rw [resultsOf_append, resultsOf_append, resultsOf_progressEffects]
  simp [terminalEffects, resultsOf, isResultRec, successRec,
    responseTextOf_eq_spec]

/-- C6: the progress-event mapping is exhaustive and exact: an assistant
message-start yields exactly the `llm_start` progress record and an
assistant message-end exactly the `llm_end` record (a non-assistant message
event yields none), a tool-invocation start maps to `tool_start` carrying
the tool name and arguments, a tool-invocation end maps to `tool_end`
carrying the tool name and the (result, isError) pair, and any other event
yields no progress record. -/
theorem C6_progress_mapping_exact
    (id : Option String) (role : String) (content : List ContentBlock)
    (n a res k : String) (ie : Bool) :
    progressOf id (SessionEvent.message_start ⟨role, content⟩)
        = (if role = "assistant"
           then some (progressRec id ProgressEvent.llm_start ProgressData.noData)
           else none)
      ∧ progressOf id (SessionEvent.message_end ⟨role, content⟩)
        = (if role = "assistant"
           then some (progressRec id ProgressEvent.llm_end ProgressData.noData)
           else none)
      ∧ progressOf id (SessionEvent.tool_execution_start n a)
        = some (progressRec id ProgressEvent.tool_start (ProgressData.toolStart n a))
      ∧ progressOf id (SessionEvent.tool_execution_end n res ie)
        = some (progressRec id ProgressEvent.tool_end (ProgressData.toolEnd n res ie))
      ∧ progressOf id (SessionEvent.otherEvent k) = none := by
  exact ⟨rfl, rfl, rfl, rfl, rfl⟩

/-- C9: the control-signal handler is total: for every current-task state,
every parse outcome of the raw signal, and every combination of failures of
the abort, steer, session-reset and greeting-enqueue operations, the
handler catches the exception and never propagates one to the subscriber. -/
theorem C9_handler_never_propagates
    (cur : Option String) (parsed : Option ControlSignal)
    (aF sF nF eF : Bool) :
    (handleControlSignal cur parsed aF sF nF eF).2 = false := by
  unfold handleControlSignal
  cases handlerBody cur parsed aF sF nF eF <;> rfl

/-- C4: when the agent invocation fails with the abort-specific signature
(message exactly `"Aborted"`), the published terminal result carries the
fixed user-facing message `"Task aborted by user"` and never the raw
internal error text; for any other failure message the published result is
an error record carrying the raw failure description. -/
theorem C4_abort_message_vs_raw_error
    (id : Option String) (events : List SessionEvent) (okPub : Bool)
    (pubFailMsg : String) (progOk : Nat → Bool) (m : String) :
    (m = "Aborted" →
       resultsOf (runTask id events (PromptOutcome.fail m) okPub true pubFailMsg
           progOk).1
         = [errorRec id abortFixedMessage]
       ∧ abortFixedMessage ≠ m)
    ∧ (m ≠ "Aborted" →
       resultsOf (runTask id events (PromptOutcome.fail m) okPub true pubFailMsg
           progOk).1
         = [errorRec id m]) := by
  constructor
  · intro hm
    subst hm
    refine ⟨?_, by decide⟩
    rw [resultsOf_runTask_fail]
    simp [publishedErrorText]
  · intro hm
    rw [resultsOf_runTask_fail]
    simp [publishedErrorText, hm]

/-- Witness for C4 at the concrete messages `"Aborted"` and `"boom"`. -/
theorem C4_abort_message_vs_raw_error_witness :
    resultsOf (runTask (some "t2") [] (PromptOutcome.fail "Aborted") true true
        "p" (fun _ => true)).1
      = [errorRec (some "t2") abortFixedMessage]
    ∧ resultsOf (runTask (some "t2") [] (PromptOutcome.fail "boom") true true
        "p" (fun _ => true)).1
      = [errorRec (some "t2") "boom"] :=
  ⟨((C4_abort_message_vs_raw_error (some "t2") [] true "p" (fun _ => true)
      "Aborted").1 rfl).1,
   (C4_abort_message_vs_raw_error (some "t2") [] true "p" (fun _ => true)
      "boom").2 (by decide)⟩

/-- C10: abort classification is purely string equality on the failure's
message: the published result is `errorRec id (publishedErrorText m)`, a
deterministic function of the message string alone (independent of the
event stream, the success-path publish flag, the publish-failure message
and the progress-publish outcomes — and of whether any stop signal was ever
delivered, which the task model does not even consume); the function maps
exactly `"Aborted"` to the fixed text and every other string to itself. -/
theorem C10_pure_string_abort_classification
    (id : Option String) (m : String)
    (ev1 ev2 : List SessionEvent) (ok1 ok2 : Bool) (p1 p2 : String)
    (g1 g2 : Nat → Bool) :
    resultsOf (runTask id ev1 (PromptOutcome.fail m) ok1 true p1 g1).1
      = [errorRec id (publishedErrorText m)]
    ∧ resultsOf (runTask id ev2 (PromptOutcome.fail m) ok2 true p2 g2).1
      = resultsOf (runTask id ev1 (PromptOutcome.fail m) ok1 true p1 g1).1
    ∧ publishedErrorText "Aborted" = abortFixedMessage
    ∧ (m ≠ "Aborted" → publishedErrorText m = m) := by
  refine ⟨resultsOf_runTask_fail id ev1 m ok1 p1 g1, ?_, ?_, ?_⟩
  · rw [resultsOf_runTask_fail, resultsOf_runTask_fail]
  · simp [publishedErrorText]
  · intro hm
    simp [publishedErrorText, hm]

/-- Witness for C10 at the concrete message `"oops"`, with two different
event streams and oracles. -/
theorem C10_pure_string_abort_classification_witness :
    resultsOf (runTask (some "t1")
        [SessionEvent.otherEvent "sys"] (PromptOutcome.fail "oops") true true
        "p1" (fun _ => true)).1
      = [errorRec (some "t1") (publishedErrorText "oops")]
    ∧ publishedErrorText "oops" = "oops" := by
  have h := C10_pure_string_abort_classification (some "t1") "oops"
    [SessionEvent.otherEvent "sys"] [] true false "p1" "p2"
    (fun _ => true) (fun _ => false)
  exact ⟨h.1, h.2.2.2 (by decide)⟩

/-- C1 (counterexample to the claim as stated): a dequeued task that reaches
execution, fails, and whose catch-branch result publish itself fails, is
still acknowledged in the finally block although no terminal result record
was ever published — refuting "acknowledged if and only if a terminal
Result was already published ... including the path where publishing the
result itself fails". -/
theorem C1_counterexample :
    resultsOf (processMessage "m1" ["payload", "x"]
        (fun _ => some ⟨some "t1", none, some "hi"⟩) []
        (PromptOutcome.fail "boom") false false "p" (fun _ => true)) = []
    ∧ Effect.ackMsg "m1" ∈ processMessage "m1" ["payload", "x"]
        (fun _ => some ⟨some "t1", none, some "hi"⟩) []
        (PromptOutcome.fail "boom") false false "p" (fun _ => true) := by
  decide

/-- C1 (amended): for every dequeued task that reaches execution, the
message is acknowledged on every exit path (success, error, abort, and the
path where publishing the result fails), the acknowledgment comes after
every published terminal result (no publish follows the ack), and whenever
the terminal publish that control flow reaches succeeds, a terminal result
record is indeed published before the ack; but acknowledgment is not
conditional on the publish having succeeded — when the terminal publish
fails, the message is acknowledged anyway with no result published. -/
theorem C1_ack_after_publish_attempt
    (mid : String) (fields : List String) (parse : String → Option WorkerTask)
    (events : List SessionEvent) (outcome : PromptOutcome)
    (okPub errPub : Bool) (pubFailMsg : String) (progOk : Nat → Bool)
    (task : WorkerTask)
    (hraw : findPayload fields ≠ "")
    (hparse : parse (findPayload fields) = some task)
    (hprompt : task.prompt.getD "" ≠ "") :
    ∃ pre post,
      processMessage mid fields parse events outcome okPub errPub pubFailMsg
          progOk
        = pre ++ Effect.ackMsg mid :: post
      ∧ (∀ r : WorkerResponse, Effect.publish r ∉ post)
      ∧ (errPub = true ∨ (outcome = PromptOutcome.ok ∧ okPub = true) →
         resultsOf (processMessage mid fields parse events outcome okPub errPub
             pubFailMsg progOk) ≠ []) := by
  have hEq : processMessage mid fields parse events outcome okPub errPub
        pubFailMsg progOk
      = (runTask task.id events outcome okPub errPub pubFailMsg progOk).1 ++
          Effect.ackMsg mid ::
            (if (runTask task.id events outcome okPub errPub pubFailMsg
                  progOk).2 then
              [Effect.logged "Worker loop error"]
            else []) := by
    rw [processMessage]
    simp only [hraw, if_neg, hparse]
    rw [if_neg hprompt]
    simp [List.append_assoc]
  refine ⟨(runTask task.id events outcome okPub errPub pubFailMsg progOk).1,
    (if (runTask task.id events outcome okPub errPub pubFailMsg progOk).2 then
       [Effect.logged "Worker loop error"]
     else []), hEq, ?_, ?_⟩
  · intro r
    by_cases ht : (runTask task.id events outcome okPub errPub pubFailMsg
        progOk).2 = true <;> simp [ht]
  · intro hcond
    rw [hEq]
    rw [show (runTask task.id events outcome okPub errPub pubFailMsg progOk).1
        = progressEffects task.id events progOk ++
            terminalEffects task.id (responseTextOf events) outcome okPub errPub
              pubFailMsg ++
            [Effect.unsub] from rfl]
    intro hnil
    rw [List.append_assoc, List.append_assoc, resultsOf_append,
      resultsOf_progressEffects, List.nil_append, resultsOf_append] at hnil
    rcases List.append_eq_nil.mp hnil with ⟨h1, _⟩
    exact resultsOf_terminal_ne_nil task.id (responseTextOf events) outcome
      okPub errPub pubFailMsg hcond h1

/-- Witness for C1 (amended) at a concrete parseable message with a valid
prompt, a failing prompt outcome, and a succeeding catch-branch publish. -/
theorem C1_ack_after_publish_attempt_witness :
    ∃ pre post,
      processMessage "m7" ["payload", "x"]
          (fun _ => some ⟨some "t7", none, some "hi"⟩) []
          (PromptOutcome.fail "boom") true true "p" (fun _ => true)
        = pre ++ Effect.ackMsg "m7" :: post
      ∧ (∀ r : WorkerResponse, Effect.publish r ∉ post)
      ∧ (true = true ∨ (PromptOutcome.fail "boom" = PromptOutcome.ok ∧
            true = true) →
         resultsOf (processMessage "m7" ["payload", "x"]
             (fun _ => some ⟨some "t7", none, some "hi"⟩) []
             (PromptOutcome.fail "boom") true true "p" (fun _ => true)) ≠ []) :=
  C1_ack_after_publish_attempt "m7" ["payload", "x"]
    (fun _ => some ⟨some "t7", none, some "hi"⟩) []
    (PromptOutcome.fail "boom") true true "p" (fun _ => true)
    ⟨some "t7", none, some "hi"⟩ (by decide) rfl (by decide)

/-- C2 (counterexample to the claim as stated): a stop signal delivered
while the Current-Task Slot is empty still makes the abort call into the
Agent Runtime — the handler calls `agent.abort()` unconditionally, refuting
"it makes no abort call". -/
theorem C2_counterexample :
    Effect.abortCall ∈
      (handleControlSignal none (some ⟨"stop", none, none⟩)
          false false false false).1 := by
  decide

/-- C2 (amended): for every stop signal, regardless of whether a task
occupies the Current-Task Slot, the handler publishes no result and
enqueues no task, but it unconditionally makes the abort call into the
Agent Runtime (a downstream no-op when idle). -/
theorem C2_stop_idle_publishes_nothing_but_calls_abort
    (cur : Option String) (s : ControlSignal) (aF sF nF eF : Bool)
    (hcmd : s.command = "stop") :
    (∀ r : WorkerResponse,
        Effect.publish r ∉ (handleControlSignal cur (some s) aF sF nF eF).1)
    ∧ (∀ t : WorkerTask,
        Effect.enqueueTask t ∉ (handleControlSignal cur (some s) aF sF nF eF).1)
    ∧ (aF = false →
        Effect.abortCall ∈ (handleControlSignal cur (some s) aF sF nF eF).1) := by
  cases aF with
  | true => simp [handleControlSignal, handlerBody, hcmd]
  | false => simp [handleControlSignal, handlerBody, hcmd]

/-- Witness for C2 (amended): a concrete stop signal with an empty
Current-Task Slot and no operation failures. -/
theorem C2_stop_idle_witness :
    (∀ r : WorkerResponse,
        Effect.publish r ∉ (handleControlSignal none
            (some ⟨"stop", none, none⟩) false false false false).1)
    ∧ Effect.abortCall ∈ (handleControlSignal none
        (some ⟨"stop", none, none⟩) false false false false).1 := by
  have h := C2_stop_idle_publishes_nothing_but_calls_abort none
    ⟨"stop", none, none⟩ false false false false rfl
  exact ⟨h.1, h.2.2 rfl⟩

/-- C3 (counterexample to the claim as stated): a steer signal carrying a
message, delivered while the Current-Task Slot is empty, is forwarded to
the Agent Runtime's steer operation anyway — the handler never checks the
slot, refuting "no call is made ... steer is forwarded only when a task is
current". -/
theorem C3_counterexample :
    Effect.steerCall "go" ∈
      (handleControlSignal none (some ⟨"steer", some "go", none⟩)
          false false false false).1 := by
  decide

/-- C3 (amended): a steer signal is forwarded to the Agent Runtime's steer
operation exactly when it carries a nonempty message, regardless of whether
a task occupies the Current-Task Slot; a steer signal whose message is
absent or empty is dropped silently — the branch guard fails and the
handler falls through with no steer call and no effect at all, not even a
log (the handler trace is empty). -/
theorem C3_steer_forwarded_iff_nonempty_message
    (cur : Option String) (s : ControlSignal) (aF sF nF eF : Bool)
    (hcmd : s.command = "steer") :
    (s.message.getD "" ≠ "" → sF = false →
        Effect.steerCall (s.message.getD "")
          ∈ (handleControlSignal cur (some s) aF sF nF eF).1)
    ∧ (s.message.getD "" = "" →
        (handleControlSignal cur (some s) aF sF nF eF).1 = []) := by
  constructor
  · intro hm hsF
    subst hsF
    simp [handleControlSignal, handlerBody, hcmd, hm]
  · intro hm
    simp [handleControlSignal, handlerBody, hcmd, hm]

/-- Witness for C3 (amended): a concrete steer signal with message `"go"`
while idle is forwarded; one with no message is dropped. -/
theorem C3_steer_witness :
    Effect.steerCall "go" ∈ (handleControlSignal none
        (some ⟨"steer", some "go", none⟩) false false false false).1
    ∧ (handleControlSignal none (some ⟨"steer", none, none⟩)
        false false false false).1 = [] := by
  refine ⟨?_, ?_⟩
  · exact (C3_steer_forwarded_iff_nonempty_message none
      ⟨"steer", some "go", none⟩ false false false false rfl).1
      (by decide) rfl
  · exact (C3_steer_forwarded_iff_nonempty_message none
      ⟨"steer", none, none⟩ false false false false rfl).2 rfl

/-- C7 (counterexample to the claim as stated): a reset signal carrying an
explicit id `"t9"` enqueues a greeting task whose id is `some "t9"` — not a
fire-and-forget task with no id, refuting "a task with no id for
correlation". -/
theorem C7_counterexample :
    Effect.enqueueTask ⟨some "t9", some "internal", some greetingPrompt⟩
      ∈ (handleControlSignal none (some ⟨"reset", none, some "t9"⟩)
          false false false false).1
    ∧ (greetingTask (some "t9")).id ≠ none := by
  decide

/-- C7 (amended): for every reset signal, independent of whether a task is
currently active, the handler first requests the Agent Runtime discard its
session state and then enqueues exactly one greeting task onto the Delivery
Channel; the greeting task carries the signal's id (so it is
fire-and-forget exactly when the reset signal itself carries no id). -/
theorem C7_reset_discards_then_enqueues_greeting
    (cur : Option String) (s : ControlSignal) (aF sF : Bool)
    (hcmd : s.command = "reset") :
    (handleControlSignal cur (some s) aF sF false false).1
      = [Effect.logged "[Reset]", Effect.newSessionCall,
         Effect.enqueueTask (greetingTask s.id)]
    ∧ (greetingTask s.id).id = s.id := by
  refine ⟨?_, rfl⟩
  simp [handleControlSignal, handlerBody, hcmd]

/-- Witness for C7 (amended): a concrete id-less reset signal while idle. -/
theorem C7_reset_witness :
    (handleControlSignal none (some ⟨"reset", none, none⟩)
        false false false false).1
      = [Effect.logged "[Reset]", Effect.newSessionCall,
         Effect.enqueueTask (greetingTask none)]
    ∧ (greetingTask (none : Option String)).id = none :=
  C7_reset_discards_then_enqueues_greeting none ⟨"reset", none, none⟩
    false false rfl

/-- C8 (counterexample to the claim as stated): a message whose `payload`
field is present but holds the empty string — a value that fails to parse
as JSON (the parse oracle rejects every string, in particular `""`) — is
acknowledged immediately instead of being skipped without acknowledgment:
the code tests the truthiness of the payload value, not the presence of the
field, so the empty value takes the ack-and-skip branch before the parse is
ever attempted. -/
theorem C8_counterexample :
    (fun _ => (none : Option WorkerTask)) "" = none
    ∧ Effect.ackMsg "m1" ∈ processMessage "m1" ["payload", ""]
        (fun _ => none) [] PromptOutcome.ok true true "p" (fun _ => true) := by
  decide

/-- C8 (amended): a queue message whose `payload` field is missing or holds
an empty (falsy) value is acknowledged immediately and skipped, with no
result ever published; a message whose payload value is nonempty but fails
to parse as JSON is skipped without acknowledgment, no result is ever
published for it, and the consume loop returns normally (the parse failure
is caught, so the loop continues without crashing). -/
theorem C8_payload_and_parse_handling
    (mid : String) (fields : List String) (parse : String → Option WorkerTask)
    (events : List SessionEvent) (outcome : PromptOutcome)
    (okPub errPub : Bool) (pubFailMsg : String) (progOk : Nat → Bool) :
    (findPayload fields = "" →
        processMessage mid fields parse events outcome okPub errPub pubFailMsg
            progOk
          = [Effect.logged "no payload fields", Effect.ackMsg mid]
        ∧ resultsOf (processMessage mid fields parse events outcome okPub
            errPub pubFailMsg progOk) = [])
    ∧ (findPayload fields ≠ "" → parse (findPayload fields) = none →
        processMessage mid fields parse events outcome okPub errPub pubFailMsg
            progOk
          = [Effect.logged "Failed to parse message as JSON"]
        ∧ Effect.ackMsg mid ∉ processMessage mid fields parse events outcome
            okPub errPub pubFailMsg progOk
        ∧ resultsOf (processMessage mid fields parse events outcome okPub
            errPub pubFailMsg progOk) = []) := by
  constructor
  · intro h
    have hEq : processMessage mid fields parse events outcome okPub errPub
        pubFailMsg progOk
        = [Effect.logged "no payload fields", Effect.ackMsg mid] := by
      rw [processMessage]
      simp [h]
    refine ⟨hEq, ?_⟩
    rw [hEq]
    simp [resultsOf]
  · intro hraw hparse
    have hEq : processMessage mid fields parse events outcome okPub errPub
        pubFailMsg progOk
        = [Effect.logged "Failed to parse message as JSON"] := by
      rw [processMessage]
      simp [hraw, hparse]
    refine ⟨hEq, ?_, ?_⟩
    · rw [hEq]
      simp
    · rw [hEq]
      simp [resultsOf]

/-- Witness for C8 (amended): a message with no fields at all is acked and
skipped; a message whose payload is the literal `not-json`, with a parse
oracle rejecting every string, is skipped without ack and publishes no
result. -/
theorem C8_payload_and_parse_witness :
    processMessage "m3" [] (fun _ => none) [] PromptOutcome.ok true true "p"
        (fun _ => true)
      = [Effect.logged "no payload fields", Effect.ackMsg "m3"]
    ∧ processMessage "m4" ["payload", "not-json"] (fun _ => none) []
        PromptOutcome.ok true true "p" (fun _ => true)
      = [Effect.logged "Failed to parse message as JSON"]
    ∧ Effect.ackMsg "m4" ∉ processMessage "m4" ["payload", "not-json"]
        (fun _ => none) [] PromptOutcome.ok true true "p" (fun _ => true) := by
  have h3 := (C8_payload_and_parse_handling "m3" [] (fun _ => none) []
    PromptOutcome.ok true true "p" (fun _ => true)).1 rfl
  have h4 := (C8_payload_and_parse_handling "m4" ["payload", "not-json"]
    (fun _ => none) [] PromptOutcome.ok true true "p" (fun _ => true)).2
    (by decide) rfl
  exact ⟨h3.1, h4.1, h4.2.1⟩

end PiWorker
